import Mathlib

/-!
Verification development for the feedback aggregation worker
(webhook adapters, feedback processing workflow, aggregation workflow,
and the D1 database helper functions), shallowly embedded in Lean.

Timestamps (seconds) are modelled as `Int`, row ids as `Nat`.  JavaScript
values flowing through the webhook payloads are modelled by `JsVal`,
including the `undefined` value produced by accessing a missing field.
The D1 database is modelled as in-memory tables with monotonically
assigned ids; the Workers AI collaborator is modelled as the outcome of
its single call during a run (`Except` of the thrown message or the
response value).
-/

namespace FeedbackProto

/-- JavaScript values as they appear in JSON webhook payloads, plus the
`undefined` value that reading a missing property yields. -/
inductive JsVal where
  | undefined : JsVal
  | null : JsVal
  | bool : Bool → JsVal
  | num : Int → JsVal
  | str : String → JsVal
  | arr : List JsVal → JsVal
  | obj : List (String × JsVal) → JsVal

/-- Property access `v.k` (and the null-safe `v?.k`): on an object, the first
binding of the key; anything else yields `undefined`. -/
def JsVal.get (v : JsVal) (k : String) : JsVal :=
  match v with
  | .obj fs =>
    match fs.lookup k with
    | some w => w
    | none => .undefined
  | _ => .undefined

/-- JavaScript truthiness: `undefined`, `null`, `false`, `0` and `""` are
falsy, every other value is truthy. -/
def JsVal.truthy : JsVal → Bool
  | .undefined => false
  | .null => false
  | .bool b => b
  | .num n => n != 0
  | .str s => !s.isEmpty
  | .arr _ => true
  | .obj _ => true

/-- The JavaScript `a || b` operator. -/
def jsOr (a b : JsVal) : JsVal := if a.truthy then a else b

/-- String coercion as used in template literals: `undefined`, `null`,
booleans and numbers print their usual text, arrays join their elements
with commas (`null`/`undefined` elements print empty), plain objects print
as `[object Object]`. -/
def JsVal.toDisplayString : JsVal → String
  | .undefined => "undefined"
  | .null => "null"
  | .bool b => cond b "true" "false"
  | .num n => toString n
  | .str s => s
  | .obj _ => "[object Object]"
  | .arr xs =>
    String.intercalate "," (xs.attach.map (fun x =>
      match x with
      | ⟨JsVal.null, _⟩ => ""
      | ⟨JsVal.undefined, _⟩ => ""
      | ⟨v, _⟩ => v.toDisplayString))

/-- Escaping of one character inside a JSON string literal. -/
def jsonEscapeChar (c : Char) : String :=
  if c = '"' then "\\\""
  else if c = '\\' then "\\\\"
  else if c = '\n' then "\\n"
  else if c = '\r' then "\\r"
  else if c = '\t' then "\\t"
  else String.singleton c

/-- A JSON string literal for `s`. -/
def jsonQuote (s : String) : String :=
  "\"" ++ String.join (s.data.map jsonEscapeChar) ++ "\""

/-- Is this value `undefined`? -/
def JsVal.isUndefined : JsVal → Bool
  | .undefined => true
  | _ => false

mutual

/-- Model of `JSON.stringify`: object keys bound to `undefined` are
dropped, `undefined` array elements serialize as `null`. -/
def stringifyJson : JsVal → String
  | .undefined => "null"
  | .null => "null"
  | .bool b => cond b "true" "false"
  | .num n => toString n
  | .str s => jsonQuote s
  | .arr xs => "[" ++ String.intercalate "," (stringifyArrElems xs) ++ "]"
  | .obj fs => "\x7b" ++ String.intercalate "," (stringifyObjFields fs) ++ "\x7d"

/-- Serialized elements of a JSON array. -/
def stringifyArrElems : List JsVal → List String
  | [] => []
  | x :: rest => stringifyJson x :: stringifyArrElems rest

/-- Serialized `key:value` pairs of a JSON object, skipping keys bound to
`undefined`. -/
def stringifyObjFields : List (String × JsVal) → List String
  | [] => []
  | (k, v) :: rest =>
    if v.isUndefined then stringifyObjFields rest
    else (jsonQuote k ++ ":" ++ stringifyJson v) :: stringifyObjFields rest

end

/-- A normalized feedback item produced by a source adapter:
`{content, metadata}`. -/
structure AdaptedItem where
  content : JsVal
  metadata : JsVal

/-- `payload.issue.labels?.map(l => l.name) || []`: `null`/`undefined`
short-circuit the optional chain and the `||` falls back to `[]`; an
array maps to its label names; any other value reaches `labels.map`,
which is not a function, and the adapter throws a TypeError. -/
def githubLabels (v : JsVal) : Except String JsVal :=
  match v with
  | .undefined => .ok (.arr [])
  | .null => .ok (.arr [])
  | .arr ls => .ok (.arr (ls.map (fun l => l.get "name")))
  | _ => .error "TypeError: labels.map is not a function"

/-- Adapter for GitHub webhook payloads: one item per issue, issue comment
and discussion present in the payload.  Building the issue item evaluates
the labels first, so a thrown TypeError there aborts the whole call. -/
def parseGitHubWebhook (p : JsVal) : Except String (List AdaptedItem) :=
  let commentItems :=
    if (p.get "comment").truthy && (p.get "issue").truthy then
      [{ content := JsVal.str
          ("Comment on Issue #" ++ ((p.get "issue").get "number").toDisplayString ++ ": " ++
            ((p.get "comment").get "body").toDisplayString),
         metadata := JsVal.obj
          [("issue_number", (p.get "issue").get "number"),
           ("issue_url", (p.get "issue").get "html_url"),
           ("comment_id", (p.get "comment").get "id"),
           ("author", ((p.get "comment").get "user").get "login"),
           ("action", p.get "action")] }]
    else []
  let discussionItems :=
    if (p.get "discussion").truthy then
      [{ content := JsVal.str
          ("Discussion: " ++ ((p.get "discussion").get "title").toDisplayString ++ "\n\n" ++
            (jsOr ((p.get "discussion").get "body") (JsVal.str "")).toDisplayString),
         metadata := JsVal.obj
          [("discussion_number", (p.get "discussion").get "number"),
           ("discussion_url", (p.get "discussion").get "html_url"),
           ("author", ((p.get "discussion").get "user").get "login"),
           ("category", ((p.get "discussion").get "category").get "name"),
           ("action", p.get "action")] }]
    else []
  if (p.get "issue").truthy then
    match githubLabels ((p.get "issue").get "labels") with
    | .error e => .error e
    | .ok lbls =>
      .ok
        ([{ content := JsVal.str
              ("Issue #" ++ ((p.get "issue").get "number").toDisplayString ++ ": " ++
                ((p.get "issue").get "title").toDisplayString ++ "\n\n" ++
                (jsOr ((p.get "issue").get "body") (JsVal.str "")).toDisplayString),
            metadata := JsVal.obj
              [("issue_number", (p.get "issue").get "number"),
               ("issue_url", (p.get "issue").get "html_url"),
               ("author", ((p.get "issue").get "user").get "login"),
               ("labels", lbls),
               ("state", (p.get "issue").get "state"),
               ("action", p.get "action")] }] ++
          commentItems ++ discussionItems)
  else .ok (commentItems ++ discussionItems)

/-- The JavaScript `.length` of a value: arrays and strings report their
length, objects their `length` property, anything else `undefined`. -/
def jsLength : JsVal → JsVal
  | .arr xs => .num xs.length
  | .str s => .num s.length
  | .obj fs => (JsVal.obj fs).get "length"
  | _ => .undefined

/-- `v.length > 0` as the embeds guard evaluates it: true only for a
positive numeric length (`undefined > 0` is false). -/
def jsLengthPos (v : JsVal) : Bool :=
  match jsLength v with
  | .num n => decide (0 < n)
  | _ => false

/-- The metadata object of the Discord adapter's item. -/
def discordMeta (p : JsVal) : JsVal :=
  JsVal.obj
    [("channel_id", p.get "channel_id"),
     ("guild_id", p.get "guild_id"),
     ("author", jsOr ((p.get "author").get "username") ((p.get "author").get "name")),
     ("author_id", (p.get "author").get "id"),
     ("message_id", p.get "id"),
     ("timestamp", p.get "timestamp")]

/-- The text assembled for one Discord embed: bolded title, description and
`name: value` lines for its fields; a truthy non-array `fields` reaches
`embed.fields.map`, which is not a function, and throws. -/
def discordEmbedText (e : JsVal) : Except String String :=
  let base :=
    (if (e.get "title").truthy then "**" ++ (e.get "title").toDisplayString ++ "**\n"
     else "") ++
    (if (e.get "description").truthy then (e.get "description").toDisplayString ++ "\n"
     else "")
  if (e.get "fields").truthy then
    match e.get "fields" with
    | .arr fs =>
      .ok (base ++ String.intercalate "\n"
        (fs.map (fun f => "**" ++ (f.get "name").toDisplayString ++ "**: " ++
          (f.get "value").toDisplayString)))
    | _ => .error "TypeError: embed.fields.map is not a function"
  else .ok base

/-- Adapter for Discord webhook payloads: one item when the payload has
message content or embeds.  When the embeds block runs (truthy `embeds`
with positive `length`), `embeds.map` throws on a non-array and the
string concatenation coerces the message content; otherwise the raw
content reaches `.trim()` directly, which throws on a truthy non-string
value. -/
def parseDiscordWebhook (p : JsVal) : Except String (List AdaptedItem) :=
  if (p.get "content").truthy || (p.get "embeds").truthy then
    if (p.get "embeds").truthy && jsLengthPos (p.get "embeds") then
      match p.get "embeds" with
      | .arr es =>
        match es.mapM discordEmbedText with
        | .ok texts =>
          .ok [{ content := JsVal.str
                  ((jsOr (p.get "content") (JsVal.str "")).toDisplayString ++ "\n\n" ++
                    String.intercalate "\n\n" texts).trim,
                 metadata := discordMeta p }]
        | .error e => .error e
      | _ => .error "TypeError: payload.embeds.map is not a function"
    else
      match jsOr (p.get "content") (JsVal.str "") with
      | .str s => .ok [{ content := JsVal.str s.trim, metadata := discordMeta p }]
      | _ => .error "TypeError: content.trim is not a function"
  else .ok []

/-- Adapter for Twitter webhook payloads: one item for `payload.tweet`
(content `tweet.text || tweet.full_text || ''`) and one item for a direct
`payload.text` mention. -/
def parseTwitterWebhook (p : JsVal) : List AdaptedItem :=
  (if (p.get "tweet").truthy then
    [{ content := jsOr (jsOr ((p.get "tweet").get "text") ((p.get "tweet").get "full_text"))
         (JsVal.str ""),
       metadata := JsVal.obj
        [("tweet_id", (p.get "tweet").get "id"),
         ("author", ((p.get "tweet").get "user").get "screen_name"),
         ("author_id", ((p.get "tweet").get "user").get "id"),
         ("created_at", (p.get "tweet").get "created_at"),
         ("url", JsVal.str
           ("https://twitter.com/" ++
             (((p.get "tweet").get "user").get "screen_name").toDisplayString ++
             "/status/" ++ ((p.get "tweet").get "id").toDisplayString))] }]
  else []) ++
  (if (p.get "text").truthy then
    [{ content := p.get "text",
       metadata := JsVal.obj
        [("tweet_id", p.get "id"),
         ("author", p.get "author"),
         ("created_at", p.get "created_at"),
         ("url", p.get "url")] }]
  else [])

/-- Adapter for email webhook payloads. -/
def parseEmailWebhook (p : JsVal) : List AdaptedItem :=
  if (p.get "subject").truthy || (p.get "body").truthy || (p.get "text").truthy then
    [{ content := JsVal.str
        ("Subject: " ++ (jsOr (p.get "subject") (JsVal.str "No Subject")).toDisplayString ++
          "\n\n" ++
          (jsOr (jsOr (jsOr (p.get "body") (p.get "text")) (p.get "html"))
            (JsVal.str "")).toDisplayString),
       metadata := JsVal.obj
        [("from", jsOr (p.get "from") (p.get "sender")),
         ("to", jsOr (p.get "to") (p.get "recipient")),
         ("subject", p.get "subject"),
         ("message_id", jsOr (p.get "message_id") (p.get "id")),
         ("date", jsOr (p.get "date") (p.get "timestamp"))] }]
  else []

/-- Adapter for support-ticket webhook payloads: a `ticket` object, or a
flat payload with subject/content. -/
def parseSupportTicketWebhook (p : JsVal) : List AdaptedItem :=
  if (p.get "ticket").truthy then
    let t := p.get "ticket"
    [{ content := JsVal.str
        ("Ticket #" ++ (jsOr (t.get "id") (t.get "number")).toDisplayString ++ ": " ++
          (jsOr (t.get "subject") (t.get "title")).toDisplayString ++ "\n\n" ++
          (jsOr (jsOr (jsOr (t.get "description") (t.get "body")) (t.get "content"))
            (JsVal.str "")).toDisplayString),
       metadata := JsVal.obj
        [("ticket_id", jsOr (t.get "id") (t.get "number")),
         ("status", t.get "status"),
         ("priority", t.get "priority"),
         ("requester", jsOr (t.get "requester") (t.get "customer")),
         ("created_at", jsOr (t.get "created_at") (t.get "created")),
         ("url", t.get "url")] }]
  else if (p.get "subject").truthy || (p.get "content").truthy then
    [{ content := JsVal.str
        ("Subject: " ++ (jsOr (p.get "subject") (JsVal.str "No Subject")).toDisplayString ++
          "\n\n" ++
          (jsOr (jsOr (jsOr (p.get "content") (p.get "body")) (p.get "description"))
            (JsVal.str "")).toDisplayString),
       metadata := JsVal.obj
        [("ticket_id", jsOr (p.get "id") (p.get "ticket_id")),
         ("status", p.get "status"),
         ("priority", p.get "priority"),
         ("requester", jsOr (p.get "requester") (p.get "customer")),
         ("created_at", jsOr (p.get "created_at") (p.get "created"))] }]
  else []

/-- Adapter for forum webhook payloads: a `post` object, or a flat payload
with title/content. -/
def parseForumWebhook (p : JsVal) : List AdaptedItem :=
  if (p.get "post").truthy then
    let post := p.get "post"
    [{ content := JsVal.str
        ("Post: " ++ (jsOr (post.get "title") (JsVal.str "No Title")).toDisplayString ++
          "\n\n" ++
          (jsOr (jsOr (jsOr (post.get "content") (post.get "body")) (post.get "text"))
            (JsVal.str "")).toDisplayString),
       metadata := JsVal.obj
        [("post_id", post.get "id"),
         ("author", jsOr (post.get "author") (post.get "user")),
         ("forum", jsOr (post.get "forum") (p.get "forum")),
         ("category", post.get "category"),
         ("created_at", jsOr (post.get "created_at") (post.get "created")),
         ("url", post.get "url")] }]
  else if (p.get "title").truthy || (p.get "content").truthy then
    [{ content := JsVal.str
        ("Post: " ++ (jsOr (p.get "title") (JsVal.str "No Title")).toDisplayString ++
          "\n\n" ++
          (jsOr (jsOr (jsOr (p.get "content") (p.get "body")) (p.get "text"))
            (JsVal.str "")).toDisplayString),
       metadata := JsVal.obj
        [("post_id", p.get "id"),
         ("author", jsOr (p.get "author") (p.get "user")),
         ("forum", p.get "forum"),
         ("category", p.get "category"),
         ("created_at", jsOr (p.get "created_at") (p.get "created")),
         ("url", p.get "url")] }]
  else []

/-- Model of `source.toLowerCase()` (character-wise ASCII lowering). -/
def jsToLower (s : String) : String :=
  ⟨s.data.map Char.toLower⟩

/-- The named adapters, keyed by lowercase source identifier (the own
properties of the `parsers` object literal).  The four adapters that
contain no method calls cannot throw and are wrapped as always-ok. -/
def webhookParsers : List (String × (JsVal → Except String (List AdaptedItem))) :=
  [("github", parseGitHubWebhook),
   ("discord", parseDiscordWebhook),
   ("twitter", fun p => .ok (parseTwitterWebhook p)),
   ("email", fun p => .ok (parseEmailWebhook p)),
   ("support", fun p => .ok (parseSupportTicketWebhook p)),
   ("forum", fun p => .ok (parseForumWebhook p))]

/-- The source identifiers that have a named adapter. -/
def parserKeys : List String :=
  webhookParsers.map Prod.fst

/-- Content of the generic fallback item: the payload itself when it is a
string, otherwise the payload serialized to JSON text. -/
def rawFallbackContent (payload : JsVal) : String :=
  match payload with
  | .str s => s
  | p => stringifyJson p

/-- What a `parseWebhook` call hands back: an array of adapted items, or —
when the inherited `constructor` is selected — some other value. -/
inductive WebhookResult where
  | items (its : List AdaptedItem)
  | value (v : JsVal)

/-- The `parsers` object literal inherits `Object.prototype`, so
`parsers[key]` can also hit its properties.  Since the key has been
lowercased, only the all-lowercase property names are reachable: of
`constructor`, `hasOwnProperty`, `isPrototypeOf`, `propertyIsEnumerable`,
`toLocaleString`, `toString`, `valueOf`, `__defineGetter__`,
`__defineSetter__`, `__lookupGetter__`, `__lookupSetter__` and
`__proto__`, exactly these two. -/
def objectProtoLowercaseKeys : List String :=
  ["constructor", "__proto__"]

/-- `Object(v)`, the call made when the inherited `constructor` is
selected: objects and arrays pass through unchanged, `null`/`undefined`
yield a fresh empty object, and a primitive yields its wrapper object
(not inspected further here and represented by the primitive itself). -/
def jsObjectCoerce : JsVal → JsVal
  | .null => .obj []
  | .undefined => .obj []
  | v => v

/-- The main webhook parser router, `parsers[source.toLowerCase()]`: an own
key selects the named adapter; the inherited `__proto__` accessor yields
`Object.prototype` — truthy, so the fallback is skipped, and not
callable, so the call throws a TypeError; the inherited `constructor`
yields the callable `Object`, whose call returns `Object(payload)`; every
other key misses, the lookup is `undefined` (falsy), and the router
returns a single raw `{raw: true}` item. -/
def parseWebhook (source : String) (payload : JsVal) : Except String WebhookResult :=
  match webhookParsers.lookup (jsToLower source) with
  | some parser => (parser payload).map WebhookResult.items
  | none =>
    if jsToLower source = "__proto__" then
      .error "TypeError: parser is not a function"
    else if jsToLower source = "constructor" then
      .ok (WebhookResult.value (jsObjectCoerce payload))
    else
      .ok (WebhookResult.items
        [{ content := JsVal.str (rawFallbackContent payload),
           metadata := JsVal.obj [("raw", JsVal.bool true)] }])

/-! Database model: the three D1 tables with monotonically assigned ids. -/

/-- A row of the `feedback` table.  `metadata` holds the JSON value whose
text is stored in the TEXT column (`JSON.stringify` at insert,
`JSON.parse` at use are inverse at the value level). -/
structure FeedbackRecord where
  id : Nat
  source : String
  content : String
  metadata : JsVal
  createdAt : Int
  processed : Bool

/-- A row of the `source_summaries` table. -/
structure SourceSummaryRow where
  id : Nat
  source : String
  summary : String
  dateRangeStart : Int
  dateRangeEnd : Int
  feedbackCount : Nat
  createdAt : Int
deriving DecidableEq

/-- A row of the `aggregated_summaries` table. -/
structure AggregatedSummaryRow where
  id : Nat
  summary : String
  dateRangeStart : Int
  dateRangeEnd : Int
  sourceCount : Nat
  totalFeedbackCount : Nat
  createdAt : Int
deriving DecidableEq

/-- The D1 database: the three tables plus the next AUTOINCREMENT id of
each. -/
structure DBState where
  feedback : List FeedbackRecord
  sourceSummaries : List SourceSummaryRow
  aggregatedSummaries : List AggregatedSummaryRow
  nextFeedbackId : Nat
  nextSourceSummaryId : Nat
  nextAggregatedId : Nat

/-- Insertion sort step used to model SQL `ORDER BY`: `before x y = true`
means `x` may stay in front of `y`. -/
def orderedInsert (before : α → α → Bool) (a : α) : List α → List α
  | [] => [a]
  | b :: bs => if before b a then b :: orderedInsert before a bs else a :: b :: bs

/-- Stable sort used to model SQL `ORDER BY`. -/
def sortRows (before : α → α → Bool) (l : List α) : List α :=
  l.foldr (orderedInsert before) []

/-- `db.insertFeedback`: INSERT INTO feedback, with `created_at` set to the
current time and `processed` starting false; returns the assigned id. -/
def insertFeedback (db : DBState) (now : Int) (source content : String)
    (metadata : JsVal) : Nat × DBState :=
  let id := db.nextFeedbackId
  (id,
   { db with
      feedback := db.feedback ++
        [{ id := id, source := source, content := content, metadata := metadata,
           createdAt := now, processed := false }],
      nextFeedbackId := id + 1 })

/-- `db.getUnprocessedFeedback`: SELECT * FROM feedback WHERE source = ?
AND processed = 0 ORDER BY created_at ASC LIMIT ?. -/
def getUnprocessedFeedback (db : DBState) (source : String) (limit : Nat) :
    List FeedbackRecord :=
  (sortRows (fun a b => a.createdAt ≤ b.createdAt)
    (db.feedback.filter (fun r => r.source == source && !r.processed))).take limit

/-- The workflow's reload query: SELECT * FROM feedback WHERE id IN (ids)
AND processed = 0. -/
def fetchUnprocessedByIds (db : DBState) (ids : List Nat) : List FeedbackRecord :=
  db.feedback.filter (fun r => ids.contains r.id && !r.processed)

/-- `db.markFeedbackProcessed`: on an empty id list the function returns
early with no value (JavaScript `undefined`, modelled as `none`);
otherwise it runs UPDATE feedback SET processed = 1 WHERE id IN (ids) and
returns the number of matched rows. -/
def markFeedbackProcessed (db : DBState) (ids : List Nat) : Option Nat × DBState :=
  if ids.isEmpty then (none, db)
  else
    (some ((db.feedback.filter (fun r => ids.contains r.id)).length),
     { db with
        feedback := db.feedback.map
          (fun r => if ids.contains r.id then { r with processed := true } else r) })

/-- `db.insertSourceSummary`: INSERT INTO source_summaries; returns the
assigned id. -/
def insertSourceSummary (db : DBState) (now : Int) (source summary : String)
    (dateRangeStart dateRangeEnd : Int) (feedbackCount : Nat) : Nat × DBState :=
  let id := db.nextSourceSummaryId
  (id,
   { db with
      sourceSummaries := db.sourceSummaries ++
        [{ id := id, source := source, summary := summary,
           dateRangeStart := dateRangeStart, dateRangeEnd := dateRangeEnd,
           feedbackCount := feedbackCount, createdAt := now }],
      nextSourceSummaryId := id + 1 })

/-- `db.getSourceSummaries`: SELECT * FROM source_summaries WHERE
date_range_start >= ? AND date_range_end <= ? ORDER BY created_at DESC. -/
def getSourceSummaries (db : DBState) (dateRangeStart dateRangeEnd : Int) :
    List SourceSummaryRow :=
  sortRows (fun a b => b.createdAt ≤ a.createdAt)
    (db.sourceSummaries.filter
      (fun r => decide (dateRangeStart ≤ r.dateRangeStart) &&
        decide (r.dateRangeEnd ≤ dateRangeEnd)))

/-- `db.insertAggregatedSummary`: INSERT INTO aggregated_summaries; returns
the assigned id. -/
def insertAggregatedSummary (db : DBState) (now : Int) (summary : String)
    (dateRangeStart dateRangeEnd : Int) (sourceCount totalFeedbackCount : Nat) :
    Nat × DBState :=
  let id := db.nextAggregatedId
  (id,
   { db with
      aggregatedSummaries := db.aggregatedSummaries ++
        [{ id := id, summary := summary,
           dateRangeStart := dateRangeStart, dateRangeEnd := dateRangeEnd,
           sourceCount := sourceCount, totalFeedbackCount := totalFeedbackCount,
           createdAt := now }],
      nextAggregatedId := id + 1 })

/-! The Workers AI collaborator and the summarizer helpers. -/

/-- Response unwrapping shared by all summarizers: a truthy `response`
field wins, then a raw string result, otherwise the whole result
serialized to text. -/
def unwrapAIResponse (r : JsVal) : String :=
  if (r.get "response").truthy then (r.get "response").toDisplayString
  else
    match r with
    | .str s => s
    | other => stringifyJson other

/-- The legacy `generateSummary` helper (summarize.js): empty input
short-circuits; an AI failure is caught and turned into the deterministic
fallback string with the item count and the failure message. -/
def generateSummary (ai : Except String JsVal) (feedbackItems : List FeedbackRecord) :
    String :=
  if feedbackItems.isEmpty then "No feedback to summarize."
  else
    match ai with
    | .ok response => unwrapAIResponse response
    | .error msg =>
      "Summary of " ++ toString feedbackItems.length ++
        " feedback items. Error generating AI summary: " ++ msg

/-- The workflow's `generate-summary` step body: same AI call and
unwrapping, but an AI failure is re-thrown as
`Failed to generate summary: <msg>`. -/
def workflowGenerateSummary (ai : Except String JsVal) : Except String String :=
  match ai with
  | .ok response => .ok (unwrapAIResponse response)
  | .error msg => .error ("Failed to generate summary: " ++ msg)

/-! The Feedback Processing Workflow. -/

/-- One entry of `event.params.feedbackItems`. -/
structure WorkflowItem where
  content : String
  metadata : JsVal

/-- The environment of one run: database state, current time, the outcome
the AI collaborator would produce for this run's call, and whether the
`store-summary` insert succeeds (D1 failure injection). -/
structure Env where
  db : DBState
  now : Int
  ai : Except String JsVal
  insertSummaryOk : Bool

/-- Observable database writes, in execution order. -/
inductive DBEvent where
  | insertFeedbackEv (id : Nat)
  | insertSummaryEv (id : Nat)
  | markProcessedEv (ids : List Nat)
deriving DecidableEq

/-- The value a feedback-workflow run settles with. -/
inductive RunResult where
  | noItems
  | noUnprocessed (feedbackIds : List Nat)
  | completed (feedbackIds : List Nat) (dateRangeStart dateRangeEnd : Int)
      (feedbackCount : Nat) (summaryPreview : String)
deriving DecidableEq

/-- Outcome of a workflow run: the settled value or the thrown error, the
final database state and the trace of database writes. -/
structure RunOut where
  result : Except String RunResult
  db : DBState
  trace : List DBEvent

/-- The `store-feedback` step: insert every item (metadata defaulted with
`item.metadata || {}`) and collect the assigned ids. -/
def storeItems (db : DBState) (now : Int) (source : String) :
    List WorkflowItem → List Nat × DBState × List DBEvent
  | [] => ([], db, [])
  | it :: rest =>
    let (id, db1) := insertFeedback db now source it.content (jsOr it.metadata (.obj []))
    let (ids, db2, tr) := storeItems db1 now source rest
    (id :: ids, db2, .insertFeedbackEv id :: tr)

/-- `Math.min` over the batch's `created_at` timestamps. -/
def minCreatedAt : List FeedbackRecord → Int
  | [] => 0
  | r :: rs => rs.foldl (fun a x => min a x.createdAt) r.createdAt

/-- `Math.max` over the batch's `created_at` timestamps. -/
def maxCreatedAt : List FeedbackRecord → Int
  | [] => 0
  | r :: rs => rs.foldl (fun a x => max a x.createdAt) r.createdAt

/-- Steps 2-5 of the feedback workflow, starting from the (possibly
replayed) result of the `store-feedback` step: reload the stored ids
filtered to unprocessed, generate the summary, store the SourceSummary
with the batch's min/max `created_at` and count, and finally mark the
original inserted ids processed. -/
def runAfterStore (env : Env) (source : String) (storedIds : List Nat)
    (tr : List DBEvent) : RunOut :=
  if storedIds.isEmpty then
    ⟨.ok RunResult.noItems, env.db, tr⟩
  else
    let records := fetchUnprocessedByIds env.db storedIds
    if records.isEmpty then
      ⟨.ok (RunResult.noUnprocessed storedIds), env.db, tr⟩
    else
      match workflowGenerateSummary env.ai with
      | .error e => ⟨.error e, env.db, tr⟩
      | .ok summaryText =>
        if env.insertSummaryOk then
          let dateRangeStart := minCreatedAt records
          let dateRangeEnd := maxCreatedAt records
          let (sid, db2) := insertSourceSummary env.db env.now source summaryText
            dateRangeStart dateRangeEnd records.length
          let (_, db3) := markFeedbackProcessed db2 storedIds
          ⟨.ok (RunResult.completed storedIds dateRangeStart dateRangeEnd records.length
              (summaryText.take 200 ++ "...")),
           db3, tr ++ [.insertSummaryEv sid, .markProcessedEv storedIds]⟩
        else ⟨.error "store-summary failed", env.db, tr⟩

/-- A full run of `FeedbackProcessingWorkflow.run`. -/
def runFeedbackWorkflow (env : Env) (source : String)
    (feedbackItems : List WorkflowItem) : RunOut :=
  let (ids, db1, tr1) := storeItems env.db env.now source feedbackItems
  runAfterStore { env with db := db1 } source ids tr1

/-! The Aggregation Workflow. -/

/-- One insertion into a JavaScript `Set` (first occurrence kept). -/
def jsSetInsert (acc : List String) (s : String) : List String :=
  if s ∈ acc then acc else acc ++ [s]

/-- `new Set(l).size`. -/
def jsSetSize (l : List String) : Nat :=
  (l.foldl jsSetInsert []).length

/-- The value an aggregation run settles with. -/
inductive AggResult where
  | noSummaries
  | persisted (id : Nat) (sourceCount totalFeedbackCount : Nat)
      (dateRangeStart dateRangeEnd : Int)
deriving DecidableEq

/-- Outcome of an aggregation run. -/
structure AggRunOut where
  result : Except String AggResult
  db : DBState

/-- A run of `AggregationWorkflow.run`: window `[now - days*86400, now]`,
fetch the contained source summaries, summarize them (an AI failure is
re-thrown as `Failed to generate aggregated summary: <msg>`), then store
one AggregatedSummary whose counts come from the fetched summaries and
whose date range is the query window itself. -/
def runAggregationWorkflow (env : Env) (days : Int) : AggRunOut :=
  let now := env.now
  let startTime := now - days * 86400
  let summaries := getSourceSummaries env.db startTime now
  if summaries.isEmpty then ⟨.ok AggResult.noSummaries, env.db⟩
  else
    match env.ai with
    | .error msg => ⟨.error ("Failed to generate aggregated summary: " ++ msg), env.db⟩
    | .ok resp =>
      let text := unwrapAIResponse resp
      let totalFeedbackCount := summaries.foldl (fun a s => a + s.feedbackCount) 0
      let sourceCount := jsSetSize (summaries.map (fun s => s.source))
      let (aid, db2) := insertAggregatedSummary env.db env.now text startTime now
        sourceCount totalFeedbackCount
      ⟨.ok (AggResult.persisted aid sourceCount totalFeedbackCount startTime now), db2⟩

/-! The POST /api/summarize/:source handler. -/

/-- Outcome of the manual summarize endpoint: whether a workflow run was
dispatched, plus the resulting database state and write trace. -/
structure HandlerOut where
  dispatched : Bool
  db : DBState
  trace : List DBEvent

/-- `cutoffTime` of the handler: `now - days*86400`. -/
def summarizeCutoff (env : Env) (days : Int) : Int := env.now - days * 86400

/-- The records the handler matches: unprocessed feedback for the source
(limit 100) created at or after the cutoff. -/
def summarizeMatches (env : Env) (source : String) (days : Int) : List FeedbackRecord :=
  (getUnprocessedFeedback env.db source 100).filter
    (fun r => decide (summarizeCutoff env days ≤ r.createdAt))

/-- `POST /api/summarize/:source`: fetch the matching unprocessed records,
report a no-op when none match, otherwise re-wrap them as adapter-shaped
items (content plus parsed metadata) and dispatch the Feedback Processing
Workflow over them. -/
def handleSummarizeSource (env : Env) (source : String) (days : Int) : HandlerOut :=
  let recent := summarizeMatches env source days
  if recent.isEmpty then ⟨false, env.db, []⟩
  else
    let out := runFeedbackWorkflow env source
      (recent.map (fun r => ⟨r.content, r.metadata⟩))
    ⟨true, out.db, out.trace⟩

/-! Auxiliary definitions used to state and prove the claims. -/

/-- The feedback rows the `store-feedback` step appends when the next
AUTOINCREMENT id is `n`. -/
def mkRecords (n : Nat) (now : Int) (source : String) :
    List WorkflowItem → List FeedbackRecord
  | [] => []
  | it :: rest =>
    { id := n, source := source, content := it.content,
      metadata := jsOr it.metadata (.obj []), createdAt := now, processed := false } ::
    mkRecords (n + 1) now source rest

/-- The batch a feedback-workflow run summarizes: the reload of the ids
inserted by its `store-feedback` step, filtered to unprocessed. -/
def pipelineBatch (env : Env) (source : String) (items : List WorkflowItem) :
    List FeedbackRecord :=
  let s := storeItems env.db env.now source items
  fetchUnprocessedByIds s.2.1 s.1

/-- An empty database. -/
def emptyDB : DBState := ⟨[], [], [], 1, 1, 1⟩

/-- A healthy environment over the empty database. -/
def envOk : Env := ⟨emptyDB, 100, .ok (.str "great"), true⟩

/-- An environment whose AI call throws. -/
def envAIFail : Env := ⟨emptyDB, 100, .error "boom", true⟩

/-- A database holding a single already-processed feedback record. -/
def dbProcessed : DBState :=
  ⟨[⟨1, "discord", "great app", .obj [], 50, true⟩], [], [], 2, 1, 1⟩

/-- A healthy environment over `dbProcessed`. -/
def envProcessed : Env := ⟨dbProcessed, 100, .ok (.str "great"), true⟩

/-- A database holding a single unprocessed feedback record. -/
def dbUnprocessed : DBState :=
  ⟨[⟨1, "discord", "love it", .obj [], 90, false⟩], [], [], 2, 1, 1⟩

/-- A healthy environment over `dbUnprocessed`. -/
def envUnprocessed : Env := ⟨dbUnprocessed, 100, .ok (.str "great"), true⟩

/-- A database holding two source summaries inside a week-long window. -/
def dbTwoSummaries : DBState :=
  ⟨[], [⟨1, "github", "gh summary", 200, 300, 4, 300⟩,
        ⟨2, "discord", "dc summary", 250, 350, 6, 350⟩], [], 1, 3, 1⟩

/-- A healthy environment over `dbTwoSummaries`. -/
def envTwoSummaries : Env := ⟨dbTwoSummaries, 1000, .ok (.str "agg"), true⟩

/-! Helper lemmas. -/

theorem mem_orderedInsert {α : Type} (before : α → α → Bool) (a x : α) (l : List α) :
    x ∈ orderedInsert before a l ↔ x = a ∨ x ∈ l := by
  induction l with
  | nil => simp [orderedInsert]
  | cons b bs ih =>
    simp only [orderedInsert]
    split
    · simp only [List.mem_cons, ih]
      try tauto
    · simp only [List.mem_cons]
      try tauto

theorem mem_sortRows {α : Type} (before : α → α → Bool) (x : α) (l : List α) :
    x ∈ sortRows before l ↔ x ∈ l := by
  induction l with
  | nil => simp [sortRows]
  | cons b bs ih =>
    simp only [sortRows, List.foldr_cons] at *
    rw [mem_orderedInsert, ih]
    simp

theorem storeItems_spec (now : Int) (source : String) (items : List WorkflowItem) :
    ∀ db : DBState, storeItems db now source items =
      (List.range' db.nextFeedbackId items.length,
       { db with
          feedback := db.feedback ++ mkRecords db.nextFeedbackId now source items,
          nextFeedbackId := db.nextFeedbackId + items.length },
       (List.range' db.nextFeedbackId items.length).map DBEvent.insertFeedbackEv) := by
  induction items with
  | nil =>
    intro db
    cases db
    simp [storeItems, mkRecords, List.range']
  | cons it rest ih =>
    intro db
    cases db
    simp only [storeItems, insertFeedback, ih, List.length_cons, List.range'_succ,
      List.map_cons, mkRecords, Prod.mk.injEq, DBState.mk.injEq]
    simp [List.append_assoc]
    try omega

theorem mem_mkRecords {now : Int} {source : String} :
    ∀ (items : List WorkflowItem) (n : Nat) (r : FeedbackRecord),
      r ∈ mkRecords n now source items →
      r.processed = false ∧ n ≤ r.id ∧ r.id < n + items.length ∧
      r.createdAt = now ∧ r.source = source ∧
      r.content ∈ items.map (fun it => it.content) := by
  intro items
  induction items with
  | nil =>
    intro n r h
    simp [mkRecords] at h
  | cons it rest ih =>
    intro n r h
    simp only [mkRecords, List.mem_cons] at h
    rcases h with h | h
    · subst h
      simp
      try omega
    · obtain ⟨h1, h2, h3, h4, h5, h6⟩ := ih (n + 1) r h
      refine ⟨h1, by omega, by simp; omega, h4, h5, by simp [h6]⟩

theorem foldl_min_le_foldl_max (l : List FeedbackRecord) :
    ∀ a b : Int, a ≤ b →
      l.foldl (fun x r => min x r.createdAt) a ≤
        l.foldl (fun x r => max x r.createdAt) b := by
  induction l with
  | nil =>
    intro a b h
    simpa using h
  | cons r rs ih =>
    intro a b h
    simp only [List.foldl_cons]
    exact ih _ _ (le_trans (min_le_left _ _) (le_trans h (le_max_left _ _)))

theorem minCreatedAt_le_maxCreatedAt {l : List FeedbackRecord} (h : l ≠ []) :
    minCreatedAt l ≤ maxCreatedAt l := by
  cases l with
  | nil => exact absurd rfl h
  | cons r rs => exact foldl_min_le_foldl_max rs _ _ le_rfl

theorem foldl_jsSetInsert_toFinset (l : List String) :
    ∀ acc : List String, (l.foldl jsSetInsert acc).toFinset = acc.toFinset ∪ l.toFinset := by
  induction l with
  | nil =>
    intro acc
    simp
  | cons s rest ih =>
    intro acc
    simp only [List.foldl_cons]
    rw [ih]
    have h : (jsSetInsert acc s).toFinset = insert s acc.toFinset := by
      by_cases hs : s ∈ acc
      · simp [jsSetInsert, hs]
      · simp [jsSetInsert, hs]
        ext x
        simp
        try tauto
    rw [h]
    ext x
    simp
    try tauto

theorem foldl_jsSetInsert_nodup (l : List String) :
    ∀ acc : List String, acc.Nodup → (l.foldl jsSetInsert acc).Nodup := by
  induction l with
  | nil =>
    intro acc h
    simpa using h
  | cons s rest ih =>
    intro acc h
    simp only [List.foldl_cons]
    apply ih
    by_cases hs : s ∈ acc
    · simpa [jsSetInsert, hs] using h
    · simp [jsSetInsert, hs, List.nodup_append, h]

theorem jsSetSize_eq_dedup_length (l : List String) :
    jsSetSize l = l.dedup.length := by
  unfold jsSetSize
  have h1 := foldl_jsSetInsert_toFinset l []
  have h2 := foldl_jsSetInsert_nodup l [] (by simp)
  calc (l.foldl jsSetInsert []).length
      = (l.foldl jsSetInsert []).toFinset.card := (List.toFinset_card_of_nodup h2).symm
    _ = l.toFinset.card := by rw [h1]; simp
    _ = l.dedup.length := List.card_toFinset l

theorem foldl_add_feedbackCount (l : List SourceSummaryRow) :
    ∀ n : Nat, l.foldl (fun a s => a + s.feedbackCount) n =
      n + (l.map (fun s => s.feedbackCount)).sum := by
  induction l with
  | nil =>
    intro n
    simp
  | cons s rest ih =>
    intro n
    simp [List.foldl_cons, ih, Nat.add_assoc]

theorem isEmpty_false_of_mem {α : Type} {l : List α} {a : α} (h : a ∈ l) :
    l.isEmpty = false := by
  cases l with
  | nil => cases h
  | cons x xs => rfl

theorem ne_nil_of_isEmpty_false {α : Type} {l : List α} (h : l.isEmpty = false) :
    l ≠ [] := by
  cases l <;> simp_all

theorem mkRecords_length (n : Nat) (now : Int) (source : String) :
    ∀ items : List WorkflowItem, (mkRecords n now source items).length = items.length := by
  intro items
  induction items generalizing n with
  | nil => simp [mkRecords]
  | cons it rest ih => simp [mkRecords, ih]

theorem markFeedbackProcessed_sourceSummaries (db : DBState) (ids : List Nat) :
    (markFeedbackProcessed db ids).2.sourceSummaries = db.sourceSummaries := by
  simp only [markFeedbackProcessed]
  split <;> rfl

/-- `runFeedbackWorkflow` in terms of the store step's components. -/
theorem runFeedbackWorkflow_eq (env : Env) (source : String)
    (items : List WorkflowItem) :
    runFeedbackWorkflow env source items =
      runAfterStore
        { env with db := (storeItems env.db env.now source items).2.1 }
        source
        (storeItems env.db env.now source items).1
        (storeItems env.db env.now source items).2.2 := by
  unfold runFeedbackWorkflow
  rcases hs : storeItems env.db env.now source items with ⟨ids, db1, tr1⟩
  simp [hs]

/-- Exhaustive shape of a `runAfterStore` outcome: either nothing beyond
the store step was written and the database is unchanged, or the AI call
succeeded, the summary insert succeeded, the reload was non-empty, and
the trace gains exactly the summary insert followed by the processed
marking. -/
theorem runAfterStore_cases (env : Env) (source : String) (storedIds : List Nat)
    (tr : List DBEvent) :
    ((runAfterStore env source storedIds tr).trace = tr ∧
      (runAfterStore env source storedIds tr).db = env.db) ∨
    (∃ resp, env.ai = Except.ok resp ∧ env.insertSummaryOk = true ∧
      storedIds.isEmpty = false ∧
      (fetchUnprocessedByIds env.db storedIds).isEmpty = false ∧
      (runAfterStore env source storedIds tr).trace =
        tr ++ [DBEvent.insertSummaryEv env.db.nextSourceSummaryId,
               DBEvent.markProcessedEv storedIds] ∧
      (runAfterStore env source storedIds tr).db =
        (markFeedbackProcessed
          (insertSourceSummary env.db env.now source (unwrapAIResponse resp)
            (minCreatedAt (fetchUnprocessedByIds env.db storedIds))
            (maxCreatedAt (fetchUnprocessedByIds env.db storedIds))
            (fetchUnprocessedByIds env.db storedIds).length).2
          storedIds).2) := by
  unfold runAfterStore
  by_cases h1 : storedIds.isEmpty
  · left
    simp [h1]
  · by_cases h2 : (fetchUnprocessedByIds env.db storedIds).isEmpty
    · left
      simp [h1, h2]
    · cases hai : env.ai with
      | error msg =>
        left
        simp [h1, h2, workflowGenerateSummary, hai]
      | ok resp =>
        by_cases h3 : env.insertSummaryOk
        · right
          refine ⟨resp, rfl, h3, by simp [h1], by simp [h2], ?_, ?_⟩ <;>
            simp [h1, h2, h3, workflowGenerateSummary, hai, insertSourceSummary]
        · left
          simp [h1, h2, h3, workflowGenerateSummary, hai]

/-- The reload after storing a non-empty item list is non-empty: the rows
just inserted are unprocessed and their ids are among the stored ids. -/
theorem fetch_after_store_ne (env : Env) (source : String)
    (items : List WorkflowItem) (hne : items ≠ []) :
    (fetchUnprocessedByIds
      (storeItems env.db env.now source items).2.1
      (storeItems env.db env.now source items).1).isEmpty = false := by
  cases items with
  | nil => exact absurd rfl hne
  | cons it rest =>
    rw [storeItems_spec]
    apply isEmpty_false_of_mem
      (a := { id := env.db.nextFeedbackId, source := source, content := it.content,
              metadata := jsOr it.metadata (.obj []), createdAt := env.now,
              processed := false })
    unfold fetchUnprocessedByIds
    rw [List.mem_filter]
    constructor
    · simp [mkRecords]
    · simp [List.elem_iff, List.mem_range'_1]

/-- The stored id list of a non-empty item list is non-empty. -/
theorem storeIds_ne (env : Env) (source : String)
    (items : List WorkflowItem) (hne : items ≠ []) :
    (storeItems env.db env.now source items).1.isEmpty = false := by
  cases items with
  | nil => exact absurd rfl hne
  | cons it rest =>
    rw [storeItems_spec]
    exact isEmpty_false_of_mem
      (List.mem_range'_1.mpr ⟨le_rfl, by simp⟩)

/-- Records matched by the manual summarize endpoint are unprocessed rows
of the feedback table. -/
theorem mem_summarizeMatches {env : Env} {source : String} {days : Int}
    {r : FeedbackRecord} (h : r ∈ summarizeMatches env source days) :
    r ∈ env.db.feedback ∧ r.processed = false := by
  unfold summarizeMatches at h
  have h1 := List.mem_of_mem_filter h
  unfold getUnprocessedFeedback at h1
  have h2 := List.take_subset _ _ h1
  rw [mem_sortRows] at h2
  rw [List.mem_filter] at h2
  refine ⟨h2.1, ?_⟩
  have h3 := h2.2
  simp only [Bool.and_eq_true, Bool.not_eq_true'] at h3
  exact h3.2

theorem env_with_db (env : Env) (d : DBState) : ({ env with db := d } : Env).db = d := rfl

theorem env_with_now (env : Env) (d : DBState) :
    ({ env with db := d } : Env).now = env.now := rfl

theorem env_with_ai (env : Env) (d : DBState) :
    ({ env with db := d } : Env).ai = env.ai := rfl

theorem env_with_ok (env : Env) (d : DBState) :
    ({ env with db := d } : Env).insertSummaryOk = env.insertSummaryOk := rfl

theorem storeItems_ids (db : DBState) (now : Int) (source : String)
    (items : List WorkflowItem) :
    (storeItems db now source items).1 = List.range' db.nextFeedbackId items.length := by
  rw [storeItems_spec]

theorem storeItems_feedback (db : DBState) (now : Int) (source : String)
    (items : List WorkflowItem) :
    (storeItems db now source items).2.1.feedback =
      db.feedback ++ mkRecords db.nextFeedbackId now source items := by
  rw [storeItems_spec]

theorem storeItems_sourceSummaries (db : DBState) (now : Int) (source : String)
    (items : List WorkflowItem) :
    (storeItems db now source items).2.1.sourceSummaries = db.sourceSummaries := by
  rw [storeItems_spec]

theorem storeItems_trace (db : DBState) (now : Int) (source : String)
    (items : List WorkflowItem) :
    (storeItems db now source items).2.2 =
      (List.range' db.nextFeedbackId items.length).map DBEvent.insertFeedbackEv := by
  rw [storeItems_spec]

theorem insertSourceSummary_feedback (db : DBState) (now : Int) (source summary : String)
    (a b : Int) (c : Nat) :
    (insertSourceSummary db now source summary a b c).2.feedback = db.feedback := rfl

theorem markFeedbackProcessed_feedback (db : DBState) (ids : List Nat)
    (h : ids.isEmpty = false) :
    (markFeedbackProcessed db ids).2.feedback =
      db.feedback.map
        (fun r => if ids.contains r.id then { r with processed := true } else r) := by
  unfold markFeedbackProcessed
  simp [h]

theorem map_eq_self_of_eq {α : Type} {l : List α} {f : α → α}
    (h : ∀ a ∈ l, f a = a) : l.map f = l := by
  induction l with
  | nil => rfl
  | cons x xs ih =>
    simp only [List.map_cons, h x (by simp)]
    rw [ih (fun a ha => h a (by simp [ha]))]

/-- Storing items does not change which records are processed. -/
theorem filter_processed_after_store (env : Env) (source : String)
    (items : List WorkflowItem) :
    ((storeItems env.db env.now source items).2.1).feedback.filter
      (fun r => r.processed) =
      env.db.feedback.filter (fun r => r.processed) := by
  rw [storeItems_feedback]
  simp only [List.filter_append]
  have hmk : (mkRecords env.db.nextFeedbackId env.now source items).filter
      (fun r => r.processed) = [] := by
    rw [List.filter_eq_nil_iff]
    intro r hr
    simp [(mem_mkRecords items env.db.nextFeedbackId r hr).1]
  rw [hmk, List.append_nil]

/-- The `generate-summary` step propagates an AI failure: the run settles
with the re-thrown error, leaving the database as it was after the store
step. -/
theorem runAfterStore_aiFail (env : Env) (source : String) (storedIds : List Nat)
    (tr : List DBEvent) (msg : String)
    (h1 : storedIds.isEmpty = false)
    (h2 : (fetchUnprocessedByIds env.db storedIds).isEmpty = false)
    (h3 : env.ai = Except.error msg) :
    runAfterStore env source storedIds tr =
      ⟨Except.error ("Failed to generate summary: " ++ msg), env.db, tr⟩ := by
  unfold runAfterStore workflowGenerateSummary
  rw [h3]
  simp [h1, h2]

/-- The happy path of steps 2-5: reload non-empty, AI tells a summary, the
insert succeeds; the SourceSummary is stored and the original ids are
marked processed. -/
theorem runAfterStore_success (env : Env) (source : String) (storedIds : List Nat)
    (tr : List DBEvent) (resp : JsVal)
    (h1 : storedIds.isEmpty = false)
    (h2 : (fetchUnprocessedByIds env.db storedIds).isEmpty = false)
    (h3 : env.ai = Except.ok resp)
    (h4 : env.insertSummaryOk = true) :
    runAfterStore env source storedIds tr =
      ⟨Except.ok (RunResult.completed storedIds
          (minCreatedAt (fetchUnprocessedByIds env.db storedIds))
          (maxCreatedAt (fetchUnprocessedByIds env.db storedIds))
          (fetchUnprocessedByIds env.db storedIds).length
          ((unwrapAIResponse resp).take 200 ++ "...")),
       (markFeedbackProcessed
         (insertSourceSummary env.db env.now source (unwrapAIResponse resp)
           (minCreatedAt (fetchUnprocessedByIds env.db storedIds))
           (maxCreatedAt (fetchUnprocessedByIds env.db storedIds))
           (fetchUnprocessedByIds env.db storedIds).length).2
         storedIds).2,
       tr ++ [DBEvent.insertSummaryEv env.db.nextSourceSummaryId,
              DBEvent.markProcessedEv storedIds]⟩ := by
  unfold runAfterStore workflowGenerateSummary
  rw [h3]
  simp [h1, h2, h4, insertSourceSummary]

/-! Claim theorems. -/

/-- Claim C3 counterexample: the source identifiers `__proto__` and
`constructor` match no named adapter, yet `parsers[key]` hits the
inherited `Object.prototype` properties: for `__proto__` the selected
value is the non-callable `Object.prototype`, so the call throws a
TypeError instead of never throwing; for `constructor` the call returns
`Object(payload)` instead of exactly one `{raw: true}` item. -/
theorem claim3_counterexample :
    (jsToLower "__proto__" ∉ parserKeys ∧
      parseWebhook "__proto__" (JsVal.str "hi") =
        Except.error "TypeError: parser is not a function") ∧
    (jsToLower "constructor" ∉ parserKeys ∧
      parseWebhook "constructor" (JsVal.obj [("a", JsVal.num 1)]) =
        Except.ok (WebhookResult.value (JsVal.obj [("a", JsVal.num 1)]))) :=
  ⟨⟨by decide, rfl⟩, ⟨by decide, rfl⟩⟩

/-- Claim C3 (amended): adapter selection depends only on the lowercased
source identifier (case-insensitive exact match), and for every source
identifier whose lowercased form matches no named adapter key and no
all-lowercase `Object.prototype` property name (exactly `constructor` and
`__proto__`), `parseWebhook` does not throw and returns exactly one item
whose metadata is `{raw: true}` and whose content is the payload itself
when it is a string and otherwise the payload serialized to JSON text;
the two inherited keys escape the fallback: `__proto__` selects the
non-callable `Object.prototype` and the call throws a TypeError, while
`constructor` selects `Object` and the call returns `Object(payload)`
rather than an item list. -/
theorem claim3_amended (source : String) (payload : JsVal) :
    (jsToLower source ∉ parserKeys →
      jsToLower source ∉ objectProtoLowercaseKeys →
      parseWebhook source payload =
        Except.ok (WebhookResult.items
          [{ content := JsVal.str
               (match payload with
                | JsVal.str s => s
                | p => stringifyJson p),
             metadata := JsVal.obj [("raw", JsVal.bool true)] }])) ∧
    (jsToLower source = "__proto__" →
      parseWebhook source payload =
        Except.error "TypeError: parser is not a function") ∧
    (jsToLower source = "constructor" →
      parseWebhook source payload =
        Except.ok (WebhookResult.value (jsObjectCoerce payload))) ∧
    (∀ other : String, jsToLower source = jsToLower other →
      parseWebhook source payload = parseWebhook other payload) := by
  refine ⟨?_, ?_, ?_, ?_⟩
  · intro h hpc
    simp only [parserKeys, webhookParsers, List.map_cons, List.map_nil, List.mem_cons,
      List.mem_singleton, not_or] at h
    obtain ⟨h1, h2, h3, h4, h5, h6, _⟩ := h
    simp only [objectProtoLowercaseKeys, List.mem_cons, List.mem_singleton,
      not_or] at hpc
    obtain ⟨hc, hp, _⟩ := hpc
    unfold parseWebhook rawFallbackContent
    have hl : webhookParsers.lookup (jsToLower source) = none := by
      have b1 : (jsToLower source == "github") = false := by
        rw [beq_eq_false_iff_ne]; exact h1
      have b2 : (jsToLower source == "discord") = false := by
        rw [beq_eq_false_iff_ne]; exact h2
      have b3 : (jsToLower source == "twitter") = false := by
        rw [beq_eq_false_iff_ne]; exact h3
      have b4 : (jsToLower source == "email") = false := by
        rw [beq_eq_false_iff_ne]; exact h4
      have b5 : (jsToLower source == "support") = false := by
        rw [beq_eq_false_iff_ne]; exact h5
      have b6 : (jsToLower source == "forum") = false := by
        rw [beq_eq_false_iff_ne]; exact h6
      simp [webhookParsers, List.lookup, b1, b2, b3, b4, b5, b6]
    rw [hl, if_neg hp, if_neg hc]
  · intro h
    unfold parseWebhook
    rw [h]
    rfl
  · intro h
    unfold parseWebhook
    rw [h]
    rfl
  · intro other h
    unfold parseWebhook
    rw [h]

/-- Claim C3 witness: evaluating the amended theorem on the unknown source
`JIRA` (raw fallback), on `__PROTO__` (selection is case-insensitive and
the call throws), and on `Constructor` (the call returns the coerced
payload). -/
theorem claim3_amended_witness :
    (jsToLower "JIRA" ∉ parserKeys ∧ jsToLower "JIRA" ∉ objectProtoLowercaseKeys ∧
      parseWebhook "JIRA" (JsVal.str "plain text") =
        Except.ok (WebhookResult.items
          [{ content := JsVal.str "plain text",
             metadata := JsVal.obj [("raw", JsVal.bool true)] }])) ∧
    (jsToLower "__PROTO__" = "__proto__" ∧
      parseWebhook "__PROTO__" (JsVal.str "x") =
        Except.error "TypeError: parser is not a function") ∧
    (jsToLower "Constructor" = "constructor" ∧
      parseWebhook "Constructor" (JsVal.obj [("a", JsVal.num 1)]) =
        Except.ok (WebhookResult.value
          (jsObjectCoerce (JsVal.obj [("a", JsVal.num 1)])))) := by
  refine ⟨⟨by decide, by decide, ?_⟩, ⟨by decide, ?_⟩, ⟨by decide, ?_⟩⟩
  · have h := (claim3_amended "JIRA" (JsVal.str "plain text")).1 (by decide) (by decide)
    rw [h]
  · exact (claim3_amended "__PROTO__" (JsVal.str "x")).2.1 (by decide)
  · exact (claim3_amended "Constructor" (JsVal.obj [("a", JsVal.num 1)])).2.2.1 (by decide)

/-- On recognized input the Discord adapter either throws a TypeError or
returns exactly one item whose content is a string with the adapter's
metadata. -/
theorem discord_shape (p : JsVal)
    (h : ((p.get "content").truthy || (p.get "embeds").truthy) = true) :
    (∃ msg, parseDiscordWebhook p = Except.error msg) ∨
    (∃ s : String, parseDiscordWebhook p =
      Except.ok [{ content := JsVal.str s, metadata := discordMeta p }]) := by
  unfold parseDiscordWebhook
  rw [if_pos h]
  split
  · split
    · split
      · right
        exact ⟨_, rfl⟩
      · left
        exact ⟨_, rfl⟩
    · left
      exact ⟨_, rfl⟩
  · split
    · right
      exact ⟨_, rfl⟩
    · left
      exact ⟨_, rfl⟩

/-- Claim C4 counterexample: the Twitter payload
`{tweet: {id: 1}, text: "hello"}` carries a recognizable feedback item
(the direct mention `"hello"`; the `tweet` object is also recognized),
yet `parseTwitterWebhook` returns an item whose content is the empty
string; and the recognized Discord payload `{content: 42}` makes the
adapter throw (`content.trim` on a number) instead of returning a
sequence at all. -/
theorem claim4_counterexample :
    (((JsVal.obj [("tweet", JsVal.obj [("id", JsVal.num 1)]),
        ("text", JsVal.str "hello")]).get "text").truthy = true ∧
     (parseTwitterWebhook
        (JsVal.obj [("tweet", JsVal.obj [("id", JsVal.num 1)]),
          ("text", JsVal.str "hello")])).map (fun it => it.content) =
       [JsVal.str "", JsVal.str "hello"]) ∧
    (((JsVal.obj [("content", JsVal.num 42)]).get "content").truthy = true ∧
     parseDiscordWebhook (JsVal.obj [("content", JsVal.num 42)]) =
       Except.error "TypeError: content.trim is not a function") :=
  ⟨⟨rfl, rfl⟩, ⟨rfl, rfl⟩⟩

/-- Claim C4 (amended): on recognized input the Twitter adapter returns a
non-empty sequence, and every Twitter item's content is truthy (hence a
non-empty value) unless the recognized tweet has neither a truthy `text`
nor a truthy `full_text` field, in which case that item's content is the
empty string; the Discord adapter, on recognized input, either throws a
TypeError (truthy non-string content reaching `.trim()`, a truthy
non-array `embeds` with positive length reaching `.map`, or an embed
whose truthy `fields` is not an array) or returns exactly one item whose
content is a string. -/
theorem claim4_amended (p : JsVal) :
    (((p.get "tweet").truthy || (p.get "text").truthy) = true →
      parseTwitterWebhook p ≠ []) ∧
    (((p.get "content").truthy || (p.get "embeds").truthy) = true →
      (∃ msg, parseDiscordWebhook p = Except.error msg) ∨
      (∃ it : AdaptedItem, parseDiscordWebhook p = Except.ok [it] ∧
        ∃ s : String, it.content = JsVal.str s)) ∧
    (∀ it ∈ parseTwitterWebhook p, it.content.truthy = true ∨
      (it.content = JsVal.str "" ∧ ((p.get "tweet").get "text").truthy = false ∧
        ((p.get "tweet").get "full_text").truthy = false)) := by
  refine ⟨?_, ?_, ?_⟩
  · intro h
    unfold parseTwitterWebhook
    by_cases h1 : (p.get "tweet").truthy = true
    · simp [h1]
    · have h2 : (p.get "text").truthy = true := by
        simp only [Bool.or_eq_true] at h
        tauto
      simp [h1, h2]
  · intro h
    rcases discord_shape p h with ⟨msg, hm⟩ | ⟨s, hs⟩
    · exact Or.inl ⟨msg, hm⟩
    · exact Or.inr ⟨_, hs, s, rfl⟩
  · intro it hit
    unfold parseTwitterWebhook at hit
    rcases List.mem_append.mp hit with h | h
    · by_cases h1 : (p.get "tweet").truthy = true
      · rw [if_pos h1] at h
        rw [List.mem_singleton] at h
        subst h
        by_cases ht : ((p.get "tweet").get "text").truthy = true
        · left
          simp [jsOr, ht]
        · by_cases hf : ((p.get "tweet").get "full_text").truthy = true
          · left
            simp [jsOr, ht, hf]
          · right
            simp [jsOr, ht, hf]
      · rw [if_neg h1] at h
        cases h
    · by_cases h2 : (p.get "text").truthy = true
      · rw [if_pos h2] at h
        rw [List.mem_singleton] at h
        subst h
        left
        exact h2
      · rw [if_neg h2] at h
        cases h

/-- Claim C4 witness: evaluating the amended theorem on a direct-mention
Twitter payload and a Discord message payload. -/
theorem claim4_witness :
    ((((JsVal.obj [("text", JsVal.str "hi")]).get "tweet").truthy ||
       ((JsVal.obj [("text", JsVal.str "hi")]).get "text").truthy) = true ∧
     parseTwitterWebhook (JsVal.obj [("text", JsVal.str "hi")]) ≠ []) ∧
    ((((JsVal.obj [("content", JsVal.str "nice")]).get "content").truthy ||
       ((JsVal.obj [("content", JsVal.str "nice")]).get "embeds").truthy) = true ∧
     ((∃ msg, parseDiscordWebhook (JsVal.obj [("content", JsVal.str "nice")]) =
         Except.error msg) ∨
      (∃ it : AdaptedItem,
        parseDiscordWebhook (JsVal.obj [("content", JsVal.str "nice")]) =
          Except.ok [it] ∧ ∃ s : String, it.content = JsVal.str s))) :=
  ⟨⟨rfl, (claim4_amended (JsVal.obj [("text", JsVal.str "hi")])).1 rfl⟩,
   ⟨rfl, (claim4_amended (JsVal.obj [("content", JsVal.str "nice")])).2.1 rfl⟩⟩

/-- Claim C5: `querySourceSummaries(start, end)` returns exactly the
source summaries with `dateRangeStart >= start` and `dateRangeEnd <= end`
(window containment: a summary partially outside the window is excluded
entirely, and no returned summary has `dateRangeStart < start` or
`dateRangeEnd > end`). -/
theorem claim5_window_containment (db : DBState) (ds de : Int) (s : SourceSummaryRow) :
    s ∈ getSourceSummaries db ds de ↔
      s ∈ db.sourceSummaries ∧ ds ≤ s.dateRangeStart ∧ s.dateRangeEnd ≤ de := by
  unfold getSourceSummaries
  rw [mem_sortRows]
  simp [List.mem_filter]

/-- Claim C8 counterexample: `markProcessed([])` does not return `some 0`
changed rows — the early return yields no value (JavaScript `undefined`,
here `none`) while leaving the database untouched. -/
theorem claim8_counterexample :
    (markFeedbackProcessed emptyDB []).1 ≠ some 0 ∧
    (markFeedbackProcessed emptyDB []).2 = emptyDB := by
  constructor
  · intro h
    simp [markFeedbackProcessed] at h
  · rfl

/-- Claim C8 (amended): calling `markFeedbackProcessed` with an empty id
list is a no-op that raises no error, but it returns no changed-row count
(JavaScript `undefined`, modelled as `none`) rather than 0. -/
theorem claim8_amended (db : DBState) :
    markFeedbackProcessed db [] = (none, db) := by
  simp [markFeedbackProcessed]

/-- Claim C7: when the text-generation call succeeds, an aggregation run
over a window with a non-empty fetch persists exactly one
AggregatedSummary whose `sourceCount` is the number of distinct `source`
values among the fetched summaries, whose `totalFeedbackCount` is the sum
of their `feedbackCount`, and whose date range is the query window
`[now - days*86400, now]` itself rather than values recomputed from the
results. -/
theorem claim7_aggregation_persists (env : Env) (days : Int) (resp : JsVal)
    (hai : env.ai = Except.ok resp)
    (hne : (getSourceSummaries env.db (env.now - days * 86400) env.now).isEmpty = false) :
    ∃ row : AggregatedSummaryRow,
      (runAggregationWorkflow env days).db.aggregatedSummaries =
        env.db.aggregatedSummaries ++ [row] ∧
      row.sourceCount =
        ((getSourceSummaries env.db (env.now - days * 86400) env.now).map
          (fun s => s.source)).dedup.length ∧
      row.totalFeedbackCount =
        ((getSourceSummaries env.db (env.now - days * 86400) env.now).map
          (fun s => s.feedbackCount)).sum ∧
      row.dateRangeStart = env.now - days * 86400 ∧
      row.dateRangeEnd = env.now := by
  unfold runAggregationWorkflow
  rw [hai]
  simp only [hne, Bool.false_eq_true, if_false, insertAggregatedSummary]
  refine ⟨_, rfl, ?_, ?_, rfl, rfl⟩
  · exact jsSetSize_eq_dedup_length _
  · simpa using foldl_add_feedbackCount
      (getSourceSummaries env.db (env.now - days * 86400) env.now) 0

/-- Claim C7 witness: evaluating the theorem over a database holding two
source summaries (`github` with count 4, `discord` with count 6) inside a
7-day window: the persisted row has `sourceCount = 2` and
`totalFeedbackCount = 10`. -/
theorem claim7_witness :
    envTwoSummaries.ai = Except.ok (JsVal.str "agg") ∧
    (getSourceSummaries envTwoSummaries.db
      (envTwoSummaries.now - 7 * 86400) envTwoSummaries.now).isEmpty = false ∧
    (∃ row : AggregatedSummaryRow,
      (runAggregationWorkflow envTwoSummaries 7).db.aggregatedSummaries =
        envTwoSummaries.db.aggregatedSummaries ++ [row] ∧
      row.sourceCount =
        ((getSourceSummaries envTwoSummaries.db
          (envTwoSummaries.now - 7 * 86400) envTwoSummaries.now).map
          (fun s => s.source)).dedup.length ∧
      row.totalFeedbackCount =
        ((getSourceSummaries envTwoSummaries.db
          (envTwoSummaries.now - 7 * 86400) envTwoSummaries.now).map
          (fun s => s.feedbackCount)).sum ∧
      row.dateRangeStart = envTwoSummaries.now - 7 * 86400 ∧
      row.dateRangeEnd = envTwoSummaries.now) :=
  ⟨rfl, rfl, claim7_aggregation_persists envTwoSummaries 7 (JsVal.str "agg") rfl rfl⟩

/-- Claim C1 counterexample: with the AI collaborator throwing `boom`, the
workflow run over one feedback item aborts — the `generate-summary` step
re-throws (`Failed to generate summary: boom`), no SourceSummary is
persisted, and the stored record is not marked processed — contradicting
the claim that the summarize step never propagates a failure and that the
pipeline still persists a summary and marks all records processed. -/
theorem claim1_counterexample :
    (runFeedbackWorkflow envAIFail "discord" [⟨"great app", JsVal.obj []⟩]).result =
      Except.error "Failed to generate summary: boom" ∧
    (runFeedbackWorkflow envAIFail "discord"
      [⟨"great app", JsVal.obj []⟩]).db.sourceSummaries = [] ∧
    (runFeedbackWorkflow envAIFail "discord"
      [⟨"great app", JsVal.obj []⟩]).db.feedback.all (fun r => !r.processed) = true :=
  ⟨rfl, rfl, rfl⟩

/-- Claim C1 (amended): the deterministic fallback string — item count
plus failure message — exists only in the legacy `generateSummary` helper
(summarize.js), which indeed never propagates an AI failure; the workflow
pipeline's `generate-summary` step instead re-throws the failure as
`Failed to generate summary: <msg>`, aborting the run with no
SourceSummary persisted and no record marked processed. -/
theorem claim1_amended :
    (∀ (msg : String) (records : List FeedbackRecord), records ≠ [] →
      generateSummary (Except.error msg) records =
        "Summary of " ++ toString records.length ++
          " feedback items. Error generating AI summary: " ++ msg) ∧
    (∀ (env : Env) (source : String) (items : List WorkflowItem) (msg : String),
      env.ai = Except.error msg → items ≠ [] →
      (runFeedbackWorkflow env source items).result =
        Except.error ("Failed to generate summary: " ++ msg) ∧
      (runFeedbackWorkflow env source items).db.sourceSummaries =
        env.db.sourceSummaries ∧
      (runFeedbackWorkflow env source items).db.feedback.filter
        (fun r => r.processed) =
        env.db.feedback.filter (fun r => r.processed)) := by
  constructor
  · intro msg records hne
    unfold generateSummary
    rw [if_neg (by simp only [List.isEmpty_iff]; exact hne)]
  · intro env source items msg hai hne
    rw [runFeedbackWorkflow_eq]
    rw [runAfterStore_aiFail
      { env with db := (storeItems env.db env.now source items).2.1 } source
      (storeItems env.db env.now source items).1
      (storeItems env.db env.now source items).2.2 msg
      (storeIds_ne env source items hne)
      (fetch_after_store_ne env source items hne) hai]
    refine ⟨rfl, ?_, ?_⟩
    · rw [storeItems_spec]
    · rw [storeItems_spec]
      simp only [List.filter_append]
      have hmk : (mkRecords env.db.nextFeedbackId env.now source items).filter
          (fun r => r.processed) = [] := by
        rw [List.filter_eq_nil_iff]
        intro r hr
        simp [(mem_mkRecords items env.db.nextFeedbackId r hr).1]
      rw [hmk, List.append_nil]

/-- Claim C1 witness: evaluating both halves of the amended theorem — the
legacy helper's fallback string on a one-record batch, and the workflow's
propagated error on a one-item run. -/
theorem claim1_witness :
    generateSummary (Except.error "boom")
      [⟨1, "discord", "great app", JsVal.obj [], 50, false⟩] =
      "Summary of 1 feedback items. Error generating AI summary: boom" ∧
    (runFeedbackWorkflow envAIFail "discord" [⟨"nice", JsVal.obj []⟩]).result =
      Except.error "Failed to generate summary: boom" :=
  ⟨claim1_amended.1 "boom" [⟨1, "discord", "great app", JsVal.obj [], 50, false⟩]
      (by simp),
   (claim1_amended.2 envAIFail "discord" [⟨"nice", JsVal.obj []⟩] "boom" rfl
      (by simp)).1⟩

/-- Claim C2: re-running the pipeline over already-inserted,
already-processed record ids (the durable store step replays its recorded
ids, so steps 2-5 run with the original id list) is a no-op: the reload
step's `processed = 0` filter returns the empty set, the run settles
successfully with the no-op result, and the database — in particular the
set of SourceSummaries and every record's `processed` flag — is
unchanged. -/
theorem claim2_idempotent_rerun (env : Env) (source : String) (ids : List Nat)
    (tr : List DBEvent) (hne : ids.isEmpty = false)
    (hproc : ∀ r ∈ env.db.feedback, r.id ∈ ids → r.processed = true) :
    fetchUnprocessedByIds env.db ids = [] ∧
    runAfterStore env source ids tr =
      ⟨Except.ok (RunResult.noUnprocessed ids), env.db, tr⟩ := by
  have hempty : fetchUnprocessedByIds env.db ids = [] := by
    unfold fetchUnprocessedByIds
    rw [List.filter_eq_nil_iff]
    intro r hr
    by_cases hid : r.id ∈ ids
    · simp [hproc r hr hid]
    · simp [List.elem_iff, hid]
  refine ⟨hempty, ?_⟩
  unfold runAfterStore
  simp [hne, hempty]

/-- Claim C2 witness: evaluating the theorem over a database whose single
record (id 1) is already processed, replaying stored ids `[1]`. -/
theorem claim2_witness :
    (([1] : List Nat).isEmpty = false) ∧
    (∀ r ∈ envProcessed.db.feedback, r.id ∈ [1] → r.processed = true) ∧
    (fetchUnprocessedByIds envProcessed.db [1] = [] ∧
      runAfterStore envProcessed "discord" [1] [] =
        ⟨Except.ok (RunResult.noUnprocessed [1]), envProcessed.db, []⟩) :=
  ⟨rfl, by decide,
   claim2_idempotent_rerun envProcessed "discord" [1] [] rfl (by decide)⟩

/-- Claim C6: in every workflow run, whenever the processed flags are
flipped, the flipped ids are exactly the ids the store step inserted (not
the reloaded subset), and the flip event comes strictly after a
SourceSummary insert event in the write trace; and if the summarize step
(AI call) or the persist-summary step fails, no flip event occurs at all
and the set of processed records is unchanged. -/
theorem claim6_ordering (env : Env) (source : String) (items : List WorkflowItem) :
    (∀ ids : List Nat,
      DBEvent.markProcessedEv ids ∈ (runFeedbackWorkflow env source items).trace →
        ids = (storeItems env.db env.now source items).1 ∧
        ∃ pre post sid, (runFeedbackWorkflow env source items).trace =
          pre ++ DBEvent.insertSummaryEv sid :: DBEvent.markProcessedEv ids :: post) ∧
    (((∃ msg, env.ai = Except.error msg) ∨ env.insertSummaryOk = false) →
      (∀ ids : List Nat,
        DBEvent.markProcessedEv ids ∉ (runFeedbackWorkflow env source items).trace) ∧
      (runFeedbackWorkflow env source items).db.feedback.filter (fun r => r.processed) =
        env.db.feedback.filter (fun r => r.processed)) := by
  rw [runFeedbackWorkflow_eq]
  have htr1 : ∀ ids : List Nat,
      DBEvent.markProcessedEv ids ∉ (storeItems env.db env.now source items).2.2 := by
    intro ids hmem
    rw [storeItems_trace] at hmem
    simp [List.mem_map] at hmem
  rcases runAfterStore_cases { env with db := (storeItems env.db env.now source items).2.1 }
      source (storeItems env.db env.now source items).1
      (storeItems env.db env.now source items).2.2 with
    ⟨htrace, hdb⟩ | ⟨resp, hai, hok, _, _, htrace, hdb⟩
  · constructor
    · intro ids hmem
      rw [htrace] at hmem
      exact absurd hmem (htr1 ids)
    · intro _
      refine ⟨?_, ?_⟩
      · intro ids hmem
        rw [htrace] at hmem
        exact htr1 ids hmem
      · rw [hdb, env_with_db]
        exact filter_processed_after_store env source items
  · constructor
    · intro ids hmem
      rw [htrace] at hmem
      rcases List.mem_append.mp hmem with h | h
      · exact absurd h (htr1 ids)
      · have hid : ids = (storeItems env.db env.now source items).1 := by
          simp at h
          exact h
        refine ⟨hid, (storeItems env.db env.now source items).2.2, [],
          (storeItems env.db env.now source items).2.1.nextSourceSummaryId, ?_⟩
        rw [htrace, hid]
    · intro hfail
      exfalso
      rcases hfail with ⟨msg, hmsg⟩ | hbad
      · have hcontra : Except.ok resp = Except.error msg := by
          rw [env_with_ai] at hai
          rw [← hai, hmsg]
        exact Except.noConfusion hcontra
      · rw [env_with_ok] at hok
        rw [hbad] at hok
        exact Bool.noConfusion hok

/-- Claim C6 witness: evaluating the theorem on a healthy one-item run,
where the trace is exactly a feedback insert, the summary insert and then
the processed marking of the inserted id. -/
theorem claim6_witness :
    (DBEvent.markProcessedEv [1] ∈
      (runFeedbackWorkflow envOk "discord" [⟨"great app", JsVal.obj []⟩]).trace) ∧
    ([1] = (storeItems envOk.db envOk.now "discord" [⟨"great app", JsVal.obj []⟩]).1 ∧
      ∃ pre post sid,
        (runFeedbackWorkflow envOk "discord" [⟨"great app", JsVal.obj []⟩]).trace =
          pre ++ DBEvent.insertSummaryEv sid :: DBEvent.markProcessedEv [1] :: post) :=
  ⟨by decide,
   (claim6_ordering envOk "discord" [⟨"great app", JsVal.obj []⟩]).1 [1] (by decide)⟩

/-- Claim C9: every SourceSummary a workflow run creates covers the
non-empty reloaded batch: `dateRangeStart`/`dateRangeEnd` are the min/max
`createdAt` of that batch, `feedbackCount` is the batch size, so
`dateRangeStart <= dateRangeEnd` and `feedbackCount >= 1`; in particular
no SourceSummary is ever created for an empty batch. -/
theorem claim9_summary_invariant (env : Env) (source : String)
    (items : List WorkflowItem) :
    ∀ row ∈ (runFeedbackWorkflow env source items).db.sourceSummaries,
      row ∉ env.db.sourceSummaries →
      row.dateRangeStart ≤ row.dateRangeEnd ∧ 1 ≤ row.feedbackCount ∧
      pipelineBatch env source items ≠ [] ∧
      row.dateRangeStart = minCreatedAt (pipelineBatch env source items) ∧
      row.dateRangeEnd = maxCreatedAt (pipelineBatch env source items) ∧
      row.feedbackCount = (pipelineBatch env source items).length := by
  intro row hrow hnot
  rw [runFeedbackWorkflow_eq] at hrow
  rcases runAfterStore_cases { env with db := (storeItems env.db env.now source items).2.1 }
      source (storeItems env.db env.now source items).1
      (storeItems env.db env.now source items).2.2 with
    ⟨_, hdb⟩ | ⟨resp, hai, hok, hS, hF, htrace, hdb⟩
  · rw [hdb, env_with_db] at hrow
    rw [storeItems_sourceSummaries] at hrow
    exact absurd hrow hnot
  · rw [hdb, markFeedbackProcessed_sourceSummaries] at hrow
    simp only [insertSourceSummary, env_with_db, env_with_now] at hrow
    rw [storeItems_sourceSummaries] at hrow
    rw [env_with_db] at hF
    have hbatch : pipelineBatch env source items =
        fetchUnprocessedByIds (storeItems env.db env.now source items).2.1
          (storeItems env.db env.now source items).1 := rfl
    rcases List.mem_append.mp hrow with h | h
    · exact absurd h hnot
    · rw [List.mem_singleton] at h
      subst h
      have hne : fetchUnprocessedByIds (storeItems env.db env.now source items).2.1
          (storeItems env.db env.now source items).1 ≠ [] :=
        ne_nil_of_isEmpty_false hF
      rw [hbatch]
      exact ⟨minCreatedAt_le_maxCreatedAt hne, List.length_pos.mpr hne, hne, rfl, rfl, rfl⟩

/-- Claim C9 witness: evaluating the theorem on a healthy one-item run
over the empty database: the created summary row covers the single
reloaded record. -/
theorem claim9_witness :
    ((⟨1, "discord", "great", 100, 100, 1, 100⟩ : SourceSummaryRow) ∈
      (runFeedbackWorkflow envOk "discord"
        [⟨"great app", JsVal.obj []⟩]).db.sourceSummaries) ∧
    ((⟨1, "discord", "great", 100, 100, 1, 100⟩ : SourceSummaryRow) ∉
      envOk.db.sourceSummaries) ∧
    ((⟨1, "discord", "great", 100, 100, 1, 100⟩ : SourceSummaryRow).dateRangeStart ≤
        (⟨1, "discord", "great", 100, 100, 1, 100⟩ : SourceSummaryRow).dateRangeEnd ∧
      1 ≤ (⟨1, "discord", "great", 100, 100, 1, 100⟩ : SourceSummaryRow).feedbackCount ∧
      pipelineBatch envOk "discord" [⟨"great app", JsVal.obj []⟩] ≠ [] ∧
      (⟨1, "discord", "great", 100, 100, 1, 100⟩ : SourceSummaryRow).dateRangeStart =
        minCreatedAt (pipelineBatch envOk "discord" [⟨"great app", JsVal.obj []⟩]) ∧
      (⟨1, "discord", "great", 100, 100, 1, 100⟩ : SourceSummaryRow).dateRangeEnd =
        maxCreatedAt (pipelineBatch envOk "discord" [⟨"great app", JsVal.obj []⟩]) ∧
      (⟨1, "discord", "great", 100, 100, 1, 100⟩ : SourceSummaryRow).feedbackCount =
        (pipelineBatch envOk "discord" [⟨"great app", JsVal.obj []⟩]).length) :=
  ⟨by decide, by decide,
   claim9_summary_invariant envOk "discord" [⟨"great app", JsVal.obj []⟩]
     ⟨1, "discord", "great", 100, 100, 1, 100⟩ (by decide) (by decide)⟩

/-- Claim C10: a `POST /api/summarize/:source` call that matches at least
one unprocessed record re-wraps the fetched records as adapter-shaped
items and dispatches the workflow, whose store step inserts each item as
a brand-new FeedbackRecord; after a healthy run the table has grown by
one copy per matched record, every originally matched record is still
present with `processed = false`, and every newly inserted copy (id at or
above the previous AUTOINCREMENT bound) is marked processed and carries
the content of a matched record — so each such call duplicates the
matched feedback rows. -/
theorem claim10_duplication (env : Env) (source : String) (days : Int) (resp : JsVal)
    (hwf : ∀ r ∈ env.db.feedback, r.id < env.db.nextFeedbackId)
    (hai : env.ai = Except.ok resp)
    (hok : env.insertSummaryOk = true)
    (hne : (summarizeMatches env source days).isEmpty = false) :
    (handleSummarizeSource env source days).dispatched = true ∧
    (handleSummarizeSource env source days).db.feedback.length =
      env.db.feedback.length + (summarizeMatches env source days).length ∧
    (∀ r ∈ summarizeMatches env source days,
      r ∈ (handleSummarizeSource env source days).db.feedback ∧
        r.processed = false) ∧
    (∀ r ∈ (handleSummarizeSource env source days).db.feedback,
      env.db.nextFeedbackId ≤ r.id →
        r.processed = true ∧
        r.content ∈ (summarizeMatches env source days).map (fun x => x.content)) := by
  have hrecne : summarizeMatches env source days ≠ [] := ne_nil_of_isEmpty_false hne
  set items : List WorkflowItem :=
    (summarizeMatches env source days).map (fun r => ⟨r.content, r.metadata⟩) with hitems
  have hitemsne : items ≠ [] := by
    intro hnil
    rw [hitems] at hnil
    exact hrecne (List.map_eq_nil_iff.mp hnil)
  have hhandler : handleSummarizeSource env source days =
      ⟨true, (runFeedbackWorkflow env source items).db,
        (runFeedbackWorkflow env source items).trace⟩ := by
    unfold handleSummarizeSource
    simp [hne, ← hitems]
  have hsucc := runAfterStore_success
    { env with db := (storeItems env.db env.now source items).2.1 } source
    (storeItems env.db env.now source items).1
    (storeItems env.db env.now source items).2.2 resp
    (storeIds_ne env source items hitemsne)
    (fetch_after_store_ne env source items hitemsne)
    (by rw [env_with_ai]; exact hai)
    (by rw [env_with_ok]; exact hok)
  have hfeedback : (runFeedbackWorkflow env source items).db.feedback =
      env.db.feedback ++
        (mkRecords env.db.nextFeedbackId env.now source items).map
          (fun x => { x with processed := true }) := by
    rw [runFeedbackWorkflow_eq, hsucc]
    show (markFeedbackProcessed _ (storeItems env.db env.now source items).1).2.feedback = _
    rw [markFeedbackProcessed_feedback _ _ (storeIds_ne env source items hitemsne)]
    rw [insertSourceSummary_feedback, env_with_db, storeItems_feedback]
    rw [List.map_append]
    congr 1
    · apply map_eq_self_of_eq
      intro r hr
      have hnotmem : r.id ∉ List.range' env.db.nextFeedbackId items.length := by
        rw [List.mem_range'_1]
        intro hmem
        have := hwf r hr
        omega
      rw [storeItems_ids, if_neg (fun hc => hnotmem (List.elem_iff.mp hc))]
    · apply List.map_congr_left
      intro x hx
      have hb := mem_mkRecords items env.db.nextFeedbackId x hx
      rw [storeItems_ids,
        if_pos (List.elem_iff.mpr (List.mem_range'_1.mpr ⟨hb.2.1, hb.2.2.1⟩))]
  refine ⟨by rw [hhandler], ?_, ?_, ?_⟩
  · show (handleSummarizeSource env source days).db.feedback.length = _
    rw [hhandler]
    show (runFeedbackWorkflow env source items).db.feedback.length = _
    rw [hfeedback]
    simp only [List.length_append, List.length_map, mkRecords_length, hitems]
  · intro r hr
    have hm := mem_summarizeMatches hr
    constructor
    · show r ∈ (handleSummarizeSource env source days).db.feedback
      rw [hhandler]
      show r ∈ (runFeedbackWorkflow env source items).db.feedback
      rw [hfeedback]
      exact List.mem_append_left _ hm.1
    · exact hm.2
  · intro r hr hid
    rw [hhandler] at hr
    have hr2 : r ∈ (runFeedbackWorkflow env source items).db.feedback := hr
    rw [hfeedback] at hr2
    rcases List.mem_append.mp hr2 with h | h
    · exact absurd hid (not_le.mpr (hwf r h))
    · rcases List.mem_map.mp h with ⟨x, hx, hpsi⟩
      subst hpsi
      have hb := mem_mkRecords items env.db.nextFeedbackId x hx
      refine ⟨rfl, ?_⟩
      have hc : x.content ∈ items.map (fun it => it.content) := hb.2.2.2.2.2
      rw [hitems] at hc
      simpa [List.map_map, Function.comp] using hc

/-- Claim C10 witness: evaluating the theorem on a database with one
unprocessed `discord` record: the call duplicates it — the original stays
unprocessed and the fresh copy (id 2) is processed with the same
content. -/
theorem claim10_witness :
    (∀ r ∈ envUnprocessed.db.feedback, r.id < envUnprocessed.db.nextFeedbackId) ∧
    (summarizeMatches envUnprocessed "discord" 1).isEmpty = false ∧
    ((handleSummarizeSource envUnprocessed "discord" 1).dispatched = true ∧
     (handleSummarizeSource envUnprocessed "discord" 1).db.feedback.length =
       envUnprocessed.db.feedback.length +
         (summarizeMatches envUnprocessed "discord" 1).length ∧
     (∀ r ∈ summarizeMatches envUnprocessed "discord" 1,
       r ∈ (handleSummarizeSource envUnprocessed "discord" 1).db.feedback ∧
         r.processed = false) ∧
     (∀ r ∈ (handleSummarizeSource envUnprocessed "discord" 1).db.feedback,
       envUnprocessed.db.nextFeedbackId ≤ r.id →
         r.processed = true ∧
         r.content ∈ (summarizeMatches envUnprocessed "discord" 1).map
           (fun x => x.content))) :=
  ⟨by decide, by rfl,
   claim10_duplication envUnprocessed "discord" 1 (JsVal.str "great")
     (by decide) rfl rfl (by rfl)⟩

end FeedbackProto
